import Mathlib

/-
Shallow embedding of the Elasticsearch document store
(src/integrations/elasticsearch/.../document_store.py) for verification of
the specification claims.  Pure in-memory transforms (verb selection, bulk
error reconciliation, score rescaling, candidate-pool resolution, filter
validation, hit deserialization) are translated function by function; the
backend (the Elasticsearch client) is modelled as an honest collaborator
holding a fixed list of matching hits, served page by page, together with a
trace of the backend calls each operation performs.
-/

set_option autoImplicit false

namespace ES

/-- JSON-like values that appear in a hit source, metadata mappings and
highlight fragments.  Only the two shapes the claims exercise are needed:
strings and nested string-keyed mappings (Python dicts in insertion order,
modelled as association lists). -/
inductive JVal where
  | str : String → JVal
  | obj : List (String × JVal) → JVal

/-- Lookup in a Python-dict-like association list (first binding wins,
mirroring dict key uniqueness). -/
def assocLookup (k : String) : List (String × JVal) → Option JVal
  | [] => none
  | (k2, v) :: rest => if k2 = k then some v else assocLookup k rest

/-- Assignment `m[k] = v` on a Python-dict-like association list: replaces
the existing binding in place, otherwise appends (dict insertion order). -/
def assocSet (k : String) (v : JVal) : List (String × JVal) → List (String × JVal)
  | [] => [(k, v)]
  | (k2, v2) :: rest => if k2 = k then (k2, v) :: rest else (k2, v2) :: assocSet k v rest

/-- A Haystack Document as it leaves `_deserialize_document`: the source
fields (the dict handed to `Document.from_dict`) and the relevance score.
`Document.from_dict` is external Haystack code; it is modelled as packaging
the field dict together with the score written under the reserved key. -/
structure Document where
  data : List (String × JVal)
  score : Option ℝ

/-- A raw Elasticsearch search hit: its `_source` dict, an optional
`highlight` fragment, and its `_score`. -/
structure Hit where
  source : List (String × JVal)
  highlight : Option JVal
  score : Option ℝ

/-- Errors of the paginated search model: a Python exception raised while
deserializing a hit, or exhaustion of the fuel that bounds the loop model
(which corresponds to a non-terminating Python loop). -/
inductive SearchErr where
  | deserializeErr : String → SearchErr
  | diverged : SearchErr

/-- Translation of `ElasticsearchDocumentStore._deserialize_document`:
`data = hit["_source"]`; when the hit carries a `highlight` fragment it is
written into `data["metadata"]["highlighted"]`, which raises a `KeyError`
when the source has no `metadata` key (and a `TypeError` when the value
under `metadata` is not a mapping); `data["score"] = hit["_score"]` is then
set unconditionally and the dict handed to `Document.from_dict`. -/
def _deserialize_document (hit : Hit) : Except String Document :=
  match hit.highlight with
  | none => Except.ok ⟨hit.source, hit.score⟩
  | some hl =>
    match assocLookup "metadata" hit.source with
    | none => Except.error "KeyError: metadata"
    | some (JVal.str _) => Except.error "TypeError: metadata does not support item assignment"
    | some (JVal.obj m) =>
      Except.ok ⟨assocSet "metadata" (JVal.obj (assocSet "highlighted" hl m)) hit.source, hit.score⟩

/-- Deserializes a page of hits in order, propagating the first raised
exception (the generator inside `documents.extend(...)` raises as soon as a
hit fails to deserialize). -/
def deserializeHits : List Hit → Except String (List Document)
  | [] => Except.ok []
  | h :: t =>
    match _deserialize_document h with
    | Except.error e => Except.error e
    | Except.ok d =>
      match deserializeHits t with
      | Except.error e => Except.error e
      | Except.ok ds => Except.ok (d :: ds)

/-- The first break condition of the pagination loop:
`top_k is not None and from_ >= top_k`. -/
def targetReached : Option Nat → Nat → Bool
  | none, _ => false
  | some t, n => decide (t ≤ n)

/-- The pagination loop body of `_search_documents`, against an honest
backend holding the fixed list `hits` of all matching documents and serving,
for a fetch at offset `from_`, the page `(hits.drop from_).take ps` with
reported total `hits.length`.  Each iteration fetches one page, extends the
accumulator, sets `from_ := len(documents)`, breaks when the target count or
the reported total is reached, and otherwise repeats.  The returned first
component lists the offsets at which fetches occurred.  The `fuel` argument
makes the (in Python unbounded) `while True` loop structurally recursive;
running out of fuel returns `SearchErr.diverged`. -/
def searchGo (hits : List Hit) (ps : Nat) (tk : Option Nat) :
    Nat → Nat → List Document → List Nat → List Nat × Except SearchErr (List Document)
  | 0, _, _, offs => (offs, Except.error SearchErr.diverged)
  | Nat.succ fuel, from_, acc, offs =>
    match deserializeHits ((hits.drop from_).take ps) with
    | Except.error e => (offs ++ [from_], Except.error (SearchErr.deserializeErr e))
    | Except.ok pageDocs =>
      let acc2 := acc ++ pageDocs
      let from2 := acc2.length
      let offs2 := offs ++ [from_]
      if targetReached tk from2 then (offs2, Except.ok acc2)
      else if hits.length ≤ from2 then (offs2, Except.ok acc2)
      else searchGo hits ps tk fuel from2 acc2 offs2

/-- Target-count determination of `_search_documents`:
`top_k = kwargs.get("size")`, falling back to `kwargs["knn"]["k"]`. -/
def topKOf (size knnK : Option Nat) : Option Nat :=
  match size with
  | some s => some s
  | none => knnK

/-- Translation of `ElasticsearchDocumentStore._search_documents` over the
honest backend model: derives the target count from the `size` kwarg, else
the `k` of a `knn` spec, else unbounded, and runs the pagination loop from
offset 0 with an empty accumulator.  The fuel `hits.length + 1` is proved
sufficient whenever the backend page size is positive. -/
def _search_documents (hits : List Hit) (ps : Nat) (size knnK : Option Nat) :
    List Nat × Except SearchErr (List Document) :=
  searchGo hits ps (topKOf size knnK) (hits.length + 1) 0 [] []

/-- The accumulated count at which the pagination loop stops fetching:
the reported total, capped by the target count when one is set. -/
def stopBound (total : Nat) : Option Nat → Nat
  | none => total
  | some t => min t total

/-- Number of fetches the pagination loop performs from offset `from_`
until the stop bound is reached: at least one fetch always occurs, then one
per page of size `ps`. -/
def iterCount (stop ps from_ : Nat) : Nat :=
  max 1 ((stop - from_ + ps - 1) / ps)

/-- The Haystack duplicate policy enumeration. -/
inductive DuplicatePolicy where
  | NONE | SKIP | OVERWRITE | FAIL
deriving DecidableEq

/-- Policy resolution shared by both write paths:
`if policy == DuplicatePolicy.NONE: policy = DuplicatePolicy.FAIL`. -/
def resolvePolicy (p : DuplicatePolicy) : DuplicatePolicy :=
  if p = DuplicatePolicy.NONE then DuplicatePolicy.FAIL else p

/-- Bulk operation verb selection of the synchronous `write_documents`:
`action = "index" if policy == DuplicatePolicy.OVERWRITE else "create"`
(applied to the already resolved policy). -/
def write_action (policy : DuplicatePolicy) : String :=
  if policy = DuplicatePolicy.OVERWRITE then "index" else "create"

/-- Bulk operation verb selection of `write_documents_async`:
`"create" if policy == DuplicatePolicy.FAIL else "index"`
(applied to the already resolved policy). -/
def write_action_async (policy : DuplicatePolicy) : String :=
  if policy = DuplicatePolicy.FAIL then "create" else "index"

/-- One per-item failure from a bulk response: the document id, the reported
error type, the HTTP status, and the bulk operation the item used (the key
under which the client reports it, `create` or `index`). -/
structure BulkError where
  id : String
  errorType : String
  status : Nat
  op : String
deriving DecidableEq

/-- The error type Elasticsearch reports for a write to an existing id. -/
def conflictType : String := "version_conflict_engine_exception"

/-- Outcome of a write call: the confirmed written count, a raised
`DuplicateDocumentError` carrying conflicting ids, a raised
`DocumentStoreError` summarizing per-item failures, or (async path only) a
`DocumentStoreError` produced by the `except` clause re-wrapping an error
raised inside the `try` block. -/
inductive WriteOutcome where
  | ok : Nat → WriteOutcome
  | duplicateError : List String → WriteOutcome
  | documentStoreError : List BulkError → WriteOutcome
  | wrappedStoreError : WriteOutcome → WriteOutcome
deriving DecidableEq

/-- The per-item reconciliation loop of the synchronous `write_documents`:
under FAIL a conflict collects its id, under SKIP a conflict is dropped, and
every other failure goes to the generic list, preserving response order. -/
def collectErrors (policy : DuplicatePolicy) : List BulkError → List String × List BulkError
  | [] => ([], [])
  | e :: rest =>
    let r := collectErrors policy rest
    if policy = DuplicatePolicy.FAIL ∧ e.errorType = conflictType then (e.id :: r.1, r.2)
    else if policy = DuplicatePolicy.SKIP ∧ e.errorType = conflictType then r
    else (r.1, e :: r.2)

/-- The ids of all conflict-type failures of a bulk response, in order. -/
def conflictIds (errors : List BulkError) : List String :=
  (errors.filter (fun e => e.errorType == conflictType)).map (fun e => e.id)

/-- Translation of the reconciliation tail of the synchronous
`write_documents` (after `helpers.bulk` returned `documents_written` and
`errors` for the fully submitted batch): classify every failure, raise one
`DuplicateDocumentError` naming all collected ids if any, else one
`DocumentStoreError` if other failures remain, else return the count the
backend confirmed. -/
def write_documents_reconcile (policy : DuplicatePolicy) (written : Nat)
    (errors : List BulkError) : WriteOutcome :=
  let p := resolvePolicy policy
  if errors.isEmpty then WriteOutcome.ok written
  else
    let r := collectErrors p errors
    if 0 < r.1.length then WriteOutcome.duplicateError r.1
    else if 0 < r.2.length then WriteOutcome.documentStoreError r.2
    else WriteOutcome.ok written

/-- Translation of the reconciliation tail of `write_documents_async`: inside
the `try` block, when `failed` is non-empty and the resolved policy is FAIL,
the first failed item whose report has a `create` key with status 409 raises
a `DuplicateDocumentError` naming that single id, after which a generic
`DocumentStoreError` over all failures is raised; the surrounding
`except Exception` clause catches any such raise and re-raises it wrapped in
a `DocumentStoreError`. -/
def write_documents_async_reconcile (policy : DuplicatePolicy) (success : Nat)
    (failed : List BulkError) : WriteOutcome :=
  let p := resolvePolicy policy
  let inner :=
    if failed.isEmpty then WriteOutcome.ok success
    else
      match (if p = DuplicatePolicy.FAIL
             then failed.find? (fun e => e.op == "create" && e.status == 409)
             else none) with
      | some e => WriteOutcome.duplicateError [e.id]
      | none => WriteOutcome.documentStoreError failed
  match inner with
  | WriteOutcome.ok n => WriteOutcome.ok n
  | e => WriteOutcome.wrappedStoreError e

/-- The visibility mode a bulk submission requests. -/
inductive Refresh where
  | waitFor
  | immediate
deriving DecidableEq

/-- The synchronous bulk paths pass `refresh="wait_for"`. -/
def write_refresh : Refresh := Refresh.waitFor

/-- The asynchronous bulk paths pass `refresh=True` (immediate refresh). -/
def write_refresh_async : Refresh := Refresh.immediate

/-- The scaling factor applied before the logistic transform
(`BM25_SCALING_FACTOR = 8`). -/
def BM25_SCALING_FACTOR : ℝ := 8

/-- The logistic rescaling a scored document receives when `scale_score` is
set: `1 / (1 + exp(-(score / BM25_SCALING_FACTOR)))`, modelling the float
expression over the reals. -/
noncomputable def rescaleScore (s : ℝ) : ℝ :=
  1 / (1 + Real.exp (-(s / BM25_SCALING_FACTOR)))

/-- The per-document step of the `scale_score` loop in `_bm25_retrieval`:
a document without a score is skipped (`continue`), a scored document gets
the logistic transform applied to its score. -/
noncomputable def scaleScoreDoc (d : Document) : Document :=
  match d.score with
  | none => d
  | some s => ⟨d.data, some (rescaleScore s)⟩

/-- The `scale_score` post-processing pass over the retrieved documents. -/
noncomputable def scaleScores (docs : List Document) : List Document :=
  docs.map scaleScoreDoc

/-- Candidate-pool resolution of the synchronous `_embedding_retrieval`:
`if not num_candidates: num_candidates = top_k * 10` (Python falsiness, so
both an absent pool and an explicit pool of 0 take the default). -/
def resolveNumCandidates (top_k : Nat) (num_candidates : Option Nat) : Nat :=
  match num_candidates with
  | none => top_k * 10
  | some n => if n = 0 then top_k * 10 else n

/-- Candidate-pool resolution of `_embedding_retrieval_async`:
`if num_candidates is None: num_candidates = top_k * 10`. -/
def resolveNumCandidatesAsync (top_k : Nat) (num_candidates : Option Nat) : Nat :=
  match num_candidates with
  | none => top_k * 10
  | some n => n

/-- The approximate-nearest-neighbor request body both embedding retrieval
variants submit: `knn` with the embedding field, the query vector, `k` and
the resolved candidate pool. -/
structure KnnRequest where
  fieldName : String
  query_vector : List ℝ
  k : Nat
  num_candidates : Nat

/-- The request-shaping part of the synchronous `_embedding_retrieval`:
reject an empty query vector, otherwise build the `knn` body with the
synchronous candidate-pool resolution. -/
def _embedding_retrieval_knn (query_embedding : List ℝ) (top_k : Nat)
    (num_candidates : Option Nat) : Except String KnnRequest :=
  if query_embedding.isEmpty then
    Except.error "query_embedding must be a non-empty list of floats"
  else
    Except.ok ⟨"embedding", query_embedding, top_k, resolveNumCandidates top_k num_candidates⟩

/-- The request-shaping part of `_embedding_retrieval_async`: reject an
empty query vector, otherwise build the `knn` body with the asynchronous
candidate-pool resolution. -/
def _embedding_retrieval_knn_async (query_embedding : List ℝ) (top_k : Nat)
    (num_candidates : Option Nat) : Except String KnnRequest :=
  if query_embedding.isEmpty then
    Except.error "query_embedding must be a non-empty list of floats"
  else
    Except.ok ⟨"embedding", query_embedding, top_k, resolveNumCandidatesAsync top_k num_candidates⟩

/-- The store façade state: the `_initialized` flag guarding the lazy
client construction and index creation. -/
structure StoreState where
  initialized : Bool
deriving DecidableEq

/-- One backend network interaction: the connectivity probe
(`self._client.info()`), the index existence check (index creation, when
needed, happens within the same initialization step), a search page fetch
at a given offset, or a bulk submission. -/
inductive BackendCall where
  | info
  | indexExists
  | search : Nat → BackendCall
  | bulk
deriving DecidableEq

/-- Translation of `_ensure_initialized`: a no-op once initialized,
otherwise it constructs the clients, probes connectivity and ensures the
index exists, and sets the flag. -/
def ensureInitialized (st : StoreState) : StoreState × List BackendCall :=
  if st.initialized then (st, [])
  else (⟨true⟩, [BackendCall.info, BackendCall.indexExists])

/-- The Elasticsearch default page size used when no `size` is passed. -/
def esDefaultPageSize : Nat := 10

/-- The number of hits the backend serves per page: the `size` kwarg when
present, else the server default. -/
def backendPageSize (size : Option Nat) : Nat :=
  match size with
  | some s => s
  | none => esDefaultPageSize

/-- The message of the invalid-filter `ValueError` raised by
`filter_documents` and `filter_documents_async`. -/
def invalidFilterMsg : String :=
  "Invalid filter syntax. See https://docs.haystack.deepset.ai/docs/metadata-filtering for details."

/-- The root-shape check of `filter_documents`:
`filters and "operator" not in filters and "conditions" not in filters`
(a `None` or empty dict is falsy and skips the check). -/
def filtersInvalid (filters : Option (List (String × JVal))) : Bool :=
  match filters with
  | none => false
  | some m =>
    !m.isEmpty && (assocLookup "operator" m).isNone && (assocLookup "conditions" m).isNone

/-- Maps a search-loop error to the exception the caller sees. -/
def searchErrMsg : SearchErr → String
  | SearchErr.deserializeErr e => e
  | SearchErr.diverged => "search did not terminate"

/-- Translation of `filter_documents`: the root-shape validation raises
before `_ensure_initialized` and before any search; otherwise the lazy
initialization runs and the paginated search executes against the backend.
Returns the result, the final store state, and the backend-call trace. -/
def filter_documents (st : StoreState) (backendHits : List Hit)
    (filters : Option (List (String × JVal))) :
    Except String (List Document) × StoreState × List BackendCall :=
  if filtersInvalid filters then (Except.error invalidFilterMsg, st, [])
  else
    let p := ensureInitialized st
    let r := _search_documents backendHits (backendPageSize none) none none
    (r.2.mapError searchErrMsg, p.1, p.2 ++ r.1.map BackendCall.search)

/-- Translation of `filter_documents_async`: identical ordering to the
synchronous variant (validation first, then initialization and search). -/
def filter_documents_async (st : StoreState) (backendHits : List Hit)
    (filters : Option (List (String × JVal))) :
    Except String (List Document) × StoreState × List BackendCall :=
  if filtersInvalid filters then (Except.error invalidFilterMsg, st, [])
  else
    let p := ensureInitialized st
    let r := _search_documents backendHits (backendPageSize none) none none
    (r.2.mapError searchErrMsg, p.1, p.2 ++ r.1.map BackendCall.search)

/-- Translation of the synchronous `_bm25_retrieval`: the empty-query
validation raises before any backend interaction (initialization is only
triggered by the `self.client` access inside the search); then the search
runs with `size = top_k` and, when `scale_score` is set, the logistic
rescaling pass is applied to the returned documents. -/
noncomputable def _bm25_retrieval (st : StoreState) (backendHits : List Hit)
    (query : String) (top_k : Nat) (scale_score : Bool) :
    Except String (List Document) × StoreState × List BackendCall :=
  if query = "" then (Except.error "query must be a non empty string", st, [])
  else
    let p := ensureInitialized st
    let r := _search_documents backendHits (backendPageSize (some top_k)) (some top_k) none
    let res := r.2.mapError searchErrMsg
    ((if scale_score then res.map scaleScores else res), p.1,
      p.2 ++ r.1.map BackendCall.search)

/-- Translation of `_bm25_retrieval_async`: `self._ensure_initialized()` is
called first, and only then is the empty-query validation performed; the
rest matches the synchronous variant. -/
noncomputable def _bm25_retrieval_async (st : StoreState) (backendHits : List Hit)
    (query : String) (top_k : Nat) (scale_score : Bool) :
    Except String (List Document) × StoreState × List BackendCall :=
  let p := ensureInitialized st
  if query = "" then (Except.error "query must be a non empty string", p.1, p.2)
  else
    let r := _search_documents backendHits (backendPageSize (some top_k)) (some top_k) none
    let res := r.2.mapError searchErrMsg
    ((if scale_score then res.map scaleScores else res), p.1,
      p.2 ++ r.1.map BackendCall.search)

/-- Translation of the synchronous `_embedding_retrieval`: the empty-vector
validation raises before any backend interaction; then the `knn` body is
built and the search runs, the backend serving `k` hits per page. -/
def _embedding_retrieval (st : StoreState) (backendHits : List Hit)
    (query_embedding : List ℝ) (top_k : Nat) (num_candidates : Option Nat) :
    Except String (List Document × KnnRequest) × StoreState × List BackendCall :=
  if query_embedding.isEmpty then
    (Except.error "query_embedding must be a non-empty list of floats", st, [])
  else
    let knn : KnnRequest :=
      ⟨"embedding", query_embedding, top_k, resolveNumCandidates top_k num_candidates⟩
    let p := ensureInitialized st
    let r := _search_documents backendHits top_k none (some top_k)
    ((r.2.mapError searchErrMsg).map (fun ds => (ds, knn)), p.1,
      p.2 ++ r.1.map BackendCall.search)

/-- Translation of `_embedding_retrieval_async`: `self._ensure_initialized()`
is called first, then the empty-vector validation, then the `knn` body with
the asynchronous candidate-pool resolution. -/
def _embedding_retrieval_async (st : StoreState) (backendHits : List Hit)
    (query_embedding : List ℝ) (top_k : Nat) (num_candidates : Option Nat) :
    Except String (List Document × KnnRequest) × StoreState × List BackendCall :=
  let p := ensureInitialized st
  if query_embedding.isEmpty then
    (Except.error "query_embedding must be a non-empty list of floats", p.1, p.2)
  else
    let knn : KnnRequest :=
      ⟨"embedding", query_embedding, top_k, resolveNumCandidatesAsync top_k num_candidates⟩
    let r := _search_documents backendHits top_k none (some top_k)
    ((r.2.mapError searchErrMsg).map (fun ds => (ds, knn)), p.1,
      p.2 ++ r.1.map BackendCall.search)

/-- An element of the `documents` argument of a write call: either an
actual `Document` or a value of some other type. -/
inductive WriteItem where
  | document : Document → WriteItem
  | notADocument : WriteItem

/-- The batch validation of both write paths:
`len(documents) > 0 and not isinstance(documents[0], Document)`
(only the first element is inspected). -/
def firstNotDocument (items : List WriteItem) : Bool :=
  match items with
  | [] => false
  | WriteItem.document _ :: _ => false
  | WriteItem.notADocument :: _ => true

/-- The control-flow skeleton of the synchronous `write_documents`: the
batch validation raises before any backend interaction (initialization is
triggered only by the `self.client` access inside `helpers.bulk`), then the
single bulk submission runs. -/
def write_documents_tr (st : StoreState) (items : List WriteItem) :
    Except String Unit × StoreState × List BackendCall :=
  if firstNotDocument items then
    (Except.error "param documents must contain a list of objects of type Document", st, [])
  else
    let p := ensureInitialized st
    (Except.ok (), p.1, p.2 ++ [BackendCall.bulk])

/-- The control-flow skeleton of `write_documents_async`:
`self._ensure_initialized()` is called first, and only then is the batch
validated, after which the single bulk submission runs. -/
def write_documents_async_tr (st : StoreState) (items : List WriteItem) :
    Except String Unit × StoreState × List BackendCall :=
  let p := ensureInitialized st
  if firstNotDocument items then
    (Except.error "param documents must contain a list of objects of type Document", p.1, p.2)
  else
    (Except.ok (), p.1, p.2 ++ [BackendCall.bulk])

/-- A hit with empty source and no highlight, for concrete instantiation. -/
def hit0 : Hit := ⟨[], none, none⟩

/-- The document `hit0` deserializes to. -/
def doc0 : Document := ⟨[], none⟩

/-- A backend holding 23 matching hits, for the concrete termination
scenario (total = 23, page size 10). -/
def hits23 : List Hit := List.replicate 23 hit0

/-- The 23 documents the backend of `hits23` yields, in backend order. -/
def docs23 : List Document := List.replicate 23 doc0

/-- A hit that carries a highlight fragment but whose source has no
`metadata` key, for the deserialization-failure scenario. -/
def badHit : Hit := ⟨[("content", JVal.str "x")], some (JVal.obj []), none⟩

/-- A hit carrying a highlight fragment whose source does contain a
`metadata` mapping, for the successful-deserialization scenario. -/
def hlHit : Hit := ⟨[("metadata", JVal.obj [])], some (JVal.str "frag"), some 1⟩

/-- Deserialization preserves the number of hits. -/
lemma deserializeHits_length (l : List Hit) (d : List Document)
    (h : deserializeHits l = Except.ok d) : d.length = l.length := by
  induction l generalizing d with
  | nil =>
    simp only [deserializeHits] at h
    cases h
    rfl
  | cons hd tl ih =>
    simp only [deserializeHits] at h
    cases h1 : _deserialize_document hd with
    | error e => rw [h1] at h; cases h
    | ok d0 =>
      rw [h1] at h
      cases h2 : deserializeHits tl with
      | error e => rw [h2] at h; cases h
      | ok ds =>
        rw [h2] at h
        cases h
        simp [ih ds h2]

/-- The prefix of a successfully deserialized page deserializes to the
corresponding prefix of the documents. -/
lemma deserializeHits_take (l : List Hit) (d : List Document)
    (h : deserializeHits l = Except.ok d) (n : Nat) :
    deserializeHits (l.take n) = Except.ok (d.take n) := by
  induction l generalizing d n with
  | nil =>
    simp only [deserializeHits] at h
    cases h
    simp [deserializeHits]
  | cons hd tl ih =>
    simp only [deserializeHits] at h
    cases h1 : _deserialize_document hd with
    | error e => rw [h1] at h; cases h
    | ok d0 =>
      rw [h1] at h
      cases h2 : deserializeHits tl with
      | error e => rw [h2] at h; cases h
      | ok ds =>
        rw [h2] at h
        cases h
        cases n with
        | zero => simp [deserializeHits]
        | succ n =>
          simp only [List.take_succ_cons]
          simp only [deserializeHits, h1, ih ds h2 n]

/-- The suffix of a successfully deserialized page deserializes to the
corresponding suffix of the documents. -/
lemma deserializeHits_drop (l : List Hit) (d : List Document)
    (h : deserializeHits l = Except.ok d) (n : Nat) :
    deserializeHits (l.drop n) = Except.ok (d.drop n) := by
  induction l generalizing d n with
  | nil =>
    simp only [deserializeHits] at h
    cases h
    simp [deserializeHits]
  | cons hd tl ih =>
    simp only [deserializeHits] at h
    cases h1 : _deserialize_document hd with
    | error e => rw [h1] at h; cases h
    | ok d0 =>
      rw [h1] at h
      cases h2 : deserializeHits tl with
      | error e => rw [h2] at h; cases h
      | ok ds =>
        rw [h2] at h
        cases h
        cases n with
        | zero => simp [deserializeHits, h1, h2]
        | succ n => simp only [List.drop_succ_cons]; exact ih ds h2 n

/-- When the stop bound is at most one page away, exactly one further fetch
occurs. -/
lemma iterCount_eq_one {stop ps from_ : Nat} (hps : 0 < ps)
    (h : stop ≤ from_ + ps) : iterCount stop ps from_ = 1 := by
  unfold iterCount
  have h3 : (stop - from_ + ps - 1) / ps < 2 :=
    (Nat.div_lt_iff_lt_mul hps).2 (by omega)
  omega

/-- When the stop bound is more than one page away, a fetch is consumed and
the count decreases by one. -/
lemma iterCount_succ {stop ps from_ : Nat} (hps : 0 < ps)
    (h : from_ + ps < stop) :
    iterCount stop ps from_ = iterCount stop ps (from_ + ps) + 1 := by
  unfold iterCount
  have e1 : stop - from_ + ps - 1 = (stop - (from_ + ps) + ps - 1) + ps := by omega
  rw [e1, Nat.add_div_right _ hps]
  have h4 : 1 ≤ (stop - (from_ + ps) + ps - 1) / ps :=
    (Nat.one_le_div_iff hps).2 (by omega)
  omega

/-- The fetch count is at least one (the loop body always runs once). -/
lemma iterCount_pos (stop ps from_ : Nat) : 1 ≤ iterCount stop ps from_ := by
  unfold iterCount
  omega

/-- The stop bound never exceeds the reported total. -/
lemma stopBound_le (total : Nat) (tk : Option Nat) : stopBound total tk ≤ total := by
  cases tk with
  | none => simp [stopBound]
  | some t => simp [stopBound]

/-- Characterization of the pagination loop over an honest backend: from an
offset equal to the accumulated count, with enough fuel, the loop performs
`iterCount` further fetches at offsets advancing by one page size, and
returns the documents of `docs` up to the page boundary at or beyond the
stop bound, in backend order. -/
lemma searchGo_eq (hits : List Hit) (docs : List Document) (ps : Nat) (tk : Option Nat)
    (hps : 0 < ps) (hdes : deserializeHits hits = Except.ok docs) :
    ∀ (fuel from_ : Nat) (offs : List Nat),
      iterCount (stopBound hits.length tk) ps from_ ≤ fuel →
      searchGo hits ps tk fuel from_ (docs.take from_) offs
        = (offs ++ (List.range (iterCount (stopBound hits.length tk) ps from_)).map
              (fun i => from_ + i * ps),
           Except.ok (docs.take (from_ + iterCount (stopBound hits.length tk) ps from_ * ps))) := by
  have hlen : docs.length = hits.length := deserializeHits_length hits docs hdes
  intro fuel
  induction fuel with
  | zero =>
    intro from_ offs hf
    have := iterCount_pos (stopBound hits.length tk) ps from_
    omega
  | succ n ih =>
    intro from_ offs hf
    have hpage : deserializeHits ((hits.drop from_).take ps)
        = Except.ok ((docs.drop from_).take ps) :=
      deserializeHits_take _ _ (deserializeHits_drop hits docs hdes from_) ps
    have hacc : docs.take from_ ++ (docs.drop from_).take ps = docs.take (from_ + ps) :=
      (List.take_add docs from_ ps).symm
    have hfromlen : (docs.take (from_ + ps)).length = min (from_ + ps) docs.length := by
      simp [List.length_take]
    rw [searchGo, hpage]
    simp only [hacc]
    by_cases hb : stopBound hits.length tk ≤ from_ + ps
    · -- last fetch: the loop breaks via the target or the total
      have hic : iterCount (stopBound hits.length tk) ps from_ = 1 := iterCount_eq_one hps hb
      have hres : offs ++ (List.range (iterCount (stopBound hits.length tk) ps from_)).map
              (fun i => from_ + i * ps) = offs ++ [from_] := by
        rw [hic]
        simp [List.range_succ]
      rw [hres, hic, one_mul]
      by_cases htr : targetReached tk (docs.take (from_ + ps)).length = true
      · rw [if_pos htr]
      · rw [if_neg htr]
        have htot : hits.length ≤ (docs.take (from_ + ps)).length := by
          rw [hfromlen, hlen]
          cases tk with
          | none =>
            simp only [stopBound] at hb
            omega
          | some t =>
            simp only [stopBound] at hb
            simp only [targetReached, decide_eq_true_eq] at htr
            rw [hfromlen, hlen] at htr
            omega
        rw [if_pos htot]
    · -- the loop continues: neither break condition holds
      push_neg at hb
      have hstot : stopBound hits.length tk ≤ hits.length := stopBound_le hits.length tk
      have hfrom2 : (docs.take (from_ + ps)).length = from_ + ps := by
        rw [hfromlen, hlen]
        omega
      have htr : ¬ targetReached tk (docs.take (from_ + ps)).length = true := by
        cases tk with
        | none => simp [targetReached]
        | some t =>
          simp only [targetReached, decide_eq_true_eq]
          rw [hfrom2]
          simp only [stopBound] at hb
          omega
      have htot : ¬ hits.length ≤ (docs.take (from_ + ps)).length := by
        rw [hfrom2]
        omega
      rw [if_neg htr, if_neg htot, hfrom2]
      have hic := iterCount_succ hps hb
      have hfuel2 : iterCount (stopBound hits.length tk) ps (from_ + ps) ≤ n := by omega
      rw [ih (from_ + ps) (offs ++ [from_]) hfuel2, hic]
      simp only [Prod.mk.injEq]
      refine ⟨?_, ?_⟩
      · rw [List.range_succ_eq_map]
        simp only [List.map_cons, List.map_map]
        have hfn : ((fun i => from_ + i * ps) ∘ Nat.succ)
            = fun i => from_ + ps + i * ps := by
          funext i
          simp only [Function.comp_apply, Nat.succ_mul]
          omega
        rw [hfn]
        simp
      · have harith : from_ + ps + iterCount (stopBound hits.length tk) ps (from_ + ps) * ps
            = from_ + (iterCount (stopBound hits.length tk) ps (from_ + ps) + 1) * ps := by
          rw [Nat.add_mul, one_mul]
          omega
        rw [harith]

/-- Characterization of `_search_documents` over an honest backend: for any
positive page size, the search starts at offset 0, fetches pages at offsets
0, ps, 2·ps, …, and returns the deserialized hits in backend order up to the
page boundary at or beyond the stop bound (the target count when set, capped
by the reported total). -/
lemma search_documents_spec (hits : List Hit) (docs : List Document) (ps : Nat)
    (size knnK : Option Nat) (hps : 0 < ps)
    (hdes : deserializeHits hits = Except.ok docs) :
    _search_documents hits ps size knnK
      = ((List.range (iterCount (stopBound hits.length (topKOf size knnK)) ps 0)).map
            (fun i => i * ps),
         Except.ok (docs.take (iterCount (stopBound hits.length (topKOf size knnK)) ps 0 * ps))) := by
  have hstot : stopBound hits.length (topKOf size knnK) ≤ hits.length :=
    stopBound_le hits.length (topKOf size knnK)
  have hmul : hits.length ≤ hits.length * ps := Nat.le_mul_of_pos_right _ hps
  have hdiv : (stopBound hits.length (topKOf size knnK) - 0 + ps - 1) / ps < hits.length + 1 :=
    (Nat.div_lt_iff_lt_mul hps).2 (by
      have : (hits.length + 1) * ps = hits.length * ps + ps := by ring
      omega)
  have hfuel : iterCount (stopBound hits.length (topKOf size knnK)) ps 0 ≤ hits.length + 1 := by
    unfold iterCount
    omega
  unfold _search_documents
  have h0 : (docs.take 0 : List Document) = [] := List.take_zero docs
  rw [← h0]
  rw [searchGo_eq hits docs ps (topKOf size knnK) hps hdes (hits.length + 1) 0 [] hfuel]
  simp

/-- Under the FAIL policy the reconciliation loop collects exactly the
conflict ids (in response order) and routes every other failure to the
generic list. -/
lemma collectErrors_fail (errors : List BulkError) :
    collectErrors DuplicatePolicy.FAIL errors
      = (conflictIds errors, errors.filter (fun e => !(e.errorType == conflictType))) := by
  induction errors with
  | nil => simp [collectErrors, conflictIds]
  | cons e rest ih =>
    simp only [collectErrors, ih]
    by_cases hc : e.errorType = conflictType
    · simp [conflictIds, hc]
    · simp [conflictIds, hc]

/-- Under the SKIP policy the reconciliation loop never collects a conflict
id and routes only non-conflict failures to the generic list. -/
lemma collectErrors_skip (errors : List BulkError) :
    collectErrors DuplicatePolicy.SKIP errors
      = ([], errors.filter (fun e => !(e.errorType == conflictType))) := by
  induction errors with
  | nil => simp [collectErrors]
  | cons e rest ih =>
    simp only [collectErrors, ih]
    by_cases hc : e.errorType = conflictType
    · simp [hc]
    · simp [hc]

/-- Reconciliation under a policy that resolves to FAIL raises one
`DuplicateDocumentError` naming all conflicting ids whenever the response
contains at least one conflict, regardless of other failures. -/
lemma reconcile_fail_dup (p : DuplicatePolicy) (hp : resolvePolicy p = DuplicatePolicy.FAIL)
    (written : Nat) (errors : List BulkError) (hne : conflictIds errors ≠ []) :
    write_documents_reconcile p written errors
      = WriteOutcome.duplicateError (conflictIds errors) := by
  unfold write_documents_reconcile
  rw [hp]
  dsimp only
  rw [collectErrors_fail]
  dsimp only
  have herrs : ¬ (errors.isEmpty = true) := by
    cases errors with
    | nil => simp [conflictIds] at hne
    | cons e rest => simp
  rw [if_neg herrs]
  have hlen : 0 < (conflictIds errors).length := by
    cases h : conflictIds errors with
    | nil => exact absurd h hne
    | cons a l => simp
  rw [if_pos hlen]

/-- C1: For every search, the paginated executor starts at offset 0, appends
each page in backend order, sets the next offset to the accumulated count
(so fetches occur at 0, ps, 2·ps, …), and stops as soon as the accumulated
count reaches the target count (the `size` kwarg, else the knn `k`, else
unbounded) or the backend-reported total; in particular a backend reporting
total = 23 with page size 10 is fetched exactly three times at offsets 0,
10, 20 and the returned sequence holds all 23 documents in backend order,
so the loop terminates even with no target count set. -/
theorem c1_pagination_loop :
    (∀ (hits : List Hit) (docs : List Document) (ps : Nat) (size knnK : Option Nat),
        0 < ps → deserializeHits hits = Except.ok docs →
        _search_documents hits ps size knnK
          = ((List.range (iterCount (stopBound hits.length (topKOf size knnK)) ps 0)).map
                (fun i => i * ps),
             Except.ok (docs.take
               (iterCount (stopBound hits.length (topKOf size knnK)) ps 0 * ps))))
    ∧ (∀ (hits : List Hit) (docs : List Document),
        hits.length = 23 → deserializeHits hits = Except.ok docs →
        _search_documents hits 10 none none = ([0, 10, 20], Except.ok docs)) := by
  constructor
  · intro hits docs ps size knnK hps hdes
    exact search_documents_spec hits docs ps size knnK hps hdes
  · intro hits docs h23 hdes
    have hlen : docs.length = hits.length := deserializeHits_length hits docs hdes
    have h := search_documents_spec hits docs 10 none none (by norm_num) hdes
    rw [h23] at h
    have e1 : iterCount (stopBound 23 (topKOf none none)) 10 0 = 3 := by decide
    rw [e1] at h
    have e2 : (List.range 3).map (fun i => i * 10) = [0, 10, 20] := by decide
    have e3 : docs.take (3 * 10) = docs := List.take_of_length_le (by omega)
    rw [e2, e3] at h
    exact h

/-- C1 witness: a backend of 23 plain hits with page size 10 is fetched at
offsets 0, 10, 20 and all 23 documents come back in order. -/
theorem c1_pagination_loop_witness :
    (hits23.length = 23 ∧ deserializeHits hits23 = Except.ok docs23)
    ∧ _search_documents hits23 10 none none = ([0, 10, 20], Except.ok docs23) :=
  ⟨⟨rfl, rfl⟩, c1_pagination_loop.2 hits23 docs23 rfl rfl⟩

/-- C2: The claim says both write paths map OVERWRITE to the upsert verb
`index` and each of FAIL, SKIP and NONE (resolved to FAIL) to the
create-only verb `create`.  The synchronous path does; the asynchronous
path computes `"create" if policy == FAIL else "index"` after policy
resolution, so SKIP gets the upsert verb `index`, which silently overwrites
the documents SKIP is meant to leave untouched. -/
theorem c2_skip_verb_divergence :
    write_action (resolvePolicy DuplicatePolicy.NONE) = "create"
    ∧ write_action (resolvePolicy DuplicatePolicy.FAIL) = "create"
    ∧ write_action (resolvePolicy DuplicatePolicy.SKIP) = "create"
    ∧ write_action (resolvePolicy DuplicatePolicy.OVERWRITE) = "index"
    ∧ write_action_async (resolvePolicy DuplicatePolicy.NONE) = "create"
    ∧ write_action_async (resolvePolicy DuplicatePolicy.FAIL) = "create"
    ∧ write_action_async (resolvePolicy DuplicatePolicy.OVERWRITE) = "index"
    ∧ write_action_async (resolvePolicy DuplicatePolicy.SKIP) = "index" := by
  exact ⟨rfl, rfl, rfl, rfl, rfl, rfl, rfl, rfl⟩

/-- C3: The synchronous write reconciliation, under FAIL (or NONE, resolved
to FAIL), raises exactly one `DuplicateDocumentError` naming all conflicting
ids, with priority over the generic `DocumentStoreError`, after the fully
submitted batch; the asynchronous path instead raises on the first
conflicting item only, naming that single id, and its `except` clause
re-wraps the error into a `DocumentStoreError`, contradicting its own
docstring. -/
theorem c3_duplicate_error_reconciliation :
    (∀ (written : Nat) (errors : List BulkError), conflictIds errors ≠ [] →
        write_documents_reconcile DuplicatePolicy.FAIL written errors
            = WriteOutcome.duplicateError (conflictIds errors)
        ∧ write_documents_reconcile DuplicatePolicy.NONE written errors
            = WriteOutcome.duplicateError (conflictIds errors))
    ∧ write_documents_async_reconcile DuplicatePolicy.FAIL 0
        [⟨"a", conflictType, 409, "create"⟩, ⟨"b", conflictType, 409, "create"⟩]
        = WriteOutcome.wrappedStoreError (WriteOutcome.duplicateError ["a"]) := by
  constructor
  · intro written errors hne
    exact ⟨reconcile_fail_dup DuplicatePolicy.FAIL rfl written errors hne,
           reconcile_fail_dup DuplicatePolicy.NONE rfl written errors hne⟩
  · decide

/-- C3 witness: a single conflict under FAIL yields one
`DuplicateDocumentError` naming that id. -/
theorem c3_duplicate_error_reconciliation_witness :
    conflictIds [⟨"x", conflictType, 409, "create"⟩] ≠ []
    ∧ write_documents_reconcile DuplicatePolicy.FAIL 0 [⟨"x", conflictType, 409, "create"⟩]
        = WriteOutcome.duplicateError ["x"] :=
  ⟨by decide,
   (c3_duplicate_error_reconciliation.1 0 [⟨"x", conflictType, 409, "create"⟩] (by decide)).1.trans
     (by decide)⟩

/-- C4: Under SKIP, every identifier-conflict failure reported by the bulk
response is treated as success: no conflict id is ever collected, and when
all failures are conflicts the call raises nothing and returns exactly the
backend-confirmed written count. -/
theorem c4_skip_conflicts_are_success :
    (∀ (written : Nat) (errors : List BulkError),
        (∀ e ∈ errors, e.errorType = conflictType) →
        write_documents_reconcile DuplicatePolicy.SKIP written errors = WriteOutcome.ok written)
    ∧ (∀ errors : List BulkError, (collectErrors DuplicatePolicy.SKIP errors).1 = []) := by
  constructor
  · intro written errors hall
    unfold write_documents_reconcile
    dsimp only
    have hres : resolvePolicy DuplicatePolicy.SKIP = DuplicatePolicy.SKIP := rfl
    rw [hres, collectErrors_skip]
    dsimp only
    have hfilt : errors.filter (fun e => !(e.errorType == conflictType)) = [] := by
      rw [List.filter_eq_nil_iff]
      intro e he
      simp [hall e he]
    rw [hfilt]
    by_cases he : errors.isEmpty = true
    · rw [if_pos he]
    · rw [if_neg he, if_neg (by simp), if_neg (by simp)]
  · intro errors
    rw [collectErrors_skip]

/-- C4 witness: one conflict under SKIP raises nothing and returns the
backend count. -/
theorem c4_skip_conflicts_are_success_witness :
    (∀ e ∈ [BulkError.mk "x" conflictType 409 "create"], e.errorType = conflictType)
    ∧ write_documents_reconcile DuplicatePolicy.SKIP 7 [⟨"x", conflictType, 409, "create"⟩]
        = WriteOutcome.ok 7 :=
  ⟨by decide, c4_skip_conflicts_are_success.1 7 [⟨"x", conflictType, 409, "create"⟩] (by decide)⟩

/-- C5: When score rescaling is requested in BM25 retrieval, a scored
document gets the logistic transform 1 / (1 + exp(-score / 8)), which is
strictly monotone, maps every score strictly between 0 and 1, leaves
documents without a score unmodified, and is exactly the pass applied to
the retrieved documents. -/
theorem c5_scale_score_monotone_bounded :
    (∀ a b : ℝ, b < a → rescaleScore b < rescaleScore a)
    ∧ (∀ s : ℝ, 0 < rescaleScore s ∧ rescaleScore s < 1)
    ∧ (∀ d : Document, d.score = none → scaleScoreDoc d = d)
    ∧ (∀ (d : Document) (s : ℝ), d.score = some s →
        scaleScoreDoc d = ⟨d.data, some (rescaleScore s)⟩)
    ∧ (∀ (st : StoreState) (hits : List Hit) (q : String) (k : Nat), q ≠ "" →
        (_bm25_retrieval st hits q k true).1
          = ((_bm25_retrieval st hits q k false).1).map scaleScores) := by
  refine ⟨?_, ?_, ?_, ?_, ?_⟩
  · intro a b hba
    unfold rescaleScore
    have hexp : Real.exp (-(a / BM25_SCALING_FACTOR)) < Real.exp (-(b / BM25_SCALING_FACTOR)) := by
      apply Real.exp_lt_exp.mpr
      unfold BM25_SCALING_FACTOR
      linarith
    have hb2 : 0 < 1 + Real.exp (-(a / BM25_SCALING_FACTOR)) := by positivity
    exact one_div_lt_one_div_of_lt hb2 (by linarith)
  · intro s
    have he : 0 < Real.exp (-(s / BM25_SCALING_FACTOR)) := Real.exp_pos _
    unfold rescaleScore
    constructor
    · positivity
    · rw [div_lt_one (by linarith)]
      linarith
  · intro d hd
    simp [scaleScoreDoc, hd]
  · intro d s hd
    simp [scaleScoreDoc, hd]
  · intro st hits q k hq
    simp [_bm25_retrieval, hq]

/-- C5 witness: the transform increases from score 0 to score 1 and a
scoreless document passes through untouched. -/
theorem c5_scale_score_monotone_bounded_witness :
    ((0:ℝ) < 1 ∧ rescaleScore 0 < rescaleScore 1)
    ∧ (doc0.score = none ∧ scaleScoreDoc doc0 = doc0) :=
  ⟨⟨zero_lt_one, c5_scale_score_monotone_bounded.1 1 0 zero_lt_one⟩,
   ⟨rfl, c5_scale_score_monotone_bounded.2.2.1 doc0 rfl⟩⟩

/-- C6: When no candidate-pool size is specified, both embedding retrieval
variants submit a knn request whose candidate pool is exactly 10 × k; in
particular top_k = 5 yields pool 50. -/
theorem c6_default_num_candidates :
    (∀ (qe : List ℝ) (k : Nat), qe.isEmpty = false →
        _embedding_retrieval_knn qe k none = Except.ok ⟨"embedding", qe, k, k * 10⟩
        ∧ _embedding_retrieval_knn_async qe k none = Except.ok ⟨"embedding", qe, k, k * 10⟩)
    ∧ resolveNumCandidates 5 none = 50 ∧ resolveNumCandidatesAsync 5 none = 50 := by
  refine ⟨?_, rfl, rfl⟩
  intro qe k hqe
  constructor
  · simp [_embedding_retrieval_knn, hqe, resolveNumCandidates]
  · simp [_embedding_retrieval_knn_async, hqe, resolveNumCandidatesAsync]

/-- C6 witness: a one-element query vector with top_k = 5 and no explicit
pool produces a knn request with pool 50. -/
theorem c6_default_num_candidates_witness :
    ([(1:ℝ)].isEmpty = false
      ∧ _embedding_retrieval_knn [(1:ℝ)] 5 none = Except.ok ⟨"embedding", [(1:ℝ)], 5, 50⟩) :=
  ⟨rfl, (c6_default_num_candidates.1 [(1:ℝ)] 5 rfl).1⟩

/-- C7: For every non-empty filter whose root has neither an `operator` nor
a `conditions` key, both filter_documents variants raise the invalid-filter
error before any backend call, leaving the store state unchanged and the
backend-call trace empty. -/
theorem c7_invalid_filter_fails_fast :
    ∀ (st : StoreState) (backendHits : List Hit) (m : List (String × JVal)),
      m ≠ [] → assocLookup "operator" m = none → assocLookup "conditions" m = none →
      filter_documents st backendHits (some m) = (Except.error invalidFilterMsg, st, [])
      ∧ filter_documents_async st backendHits (some m)
          = (Except.error invalidFilterMsg, st, []) := by
  intro st hits m hm h1 h2
  have hinv : filtersInvalid (some m) = true := by
    cases m with
    | nil => exact absurd rfl hm
    | cons a l => simp_all [filtersInvalid]
  constructor
  · simp [filter_documents, hinv]
  · simp [filter_documents_async, hinv]

/-- C7 witness: a one-field root with neither key fails fast on an
uninitialized store with an empty trace. -/
theorem c7_invalid_filter_fails_fast_witness :
    (([("field", JVal.str "x")] : List (String × JVal)) ≠ []
      ∧ filter_documents ⟨false⟩ [] (some [("field", JVal.str "x")])
          = (Except.error invalidFilterMsg, ⟨false⟩, [])) :=
  ⟨List.cons_ne_nil _ _,
   (c7_invalid_filter_fails_fast ⟨false⟩ [] [("field", JVal.str "x")]
      (List.cons_ne_nil _ _) rfl rfl).1⟩

/-- C8 counterexample: on an uninitialized store, `_bm25_retrieval_async`
with an empty query performs the lazy connectivity/index-creation step
(backend interaction) before raising the validation error, so the claim
that validation always precedes any backend interaction, including lazy
initialization, fails on the asynchronous variants. -/
theorem c8_async_init_before_validation :
    (_bm25_retrieval_async ⟨false⟩ [] "" 10 false).1
        = Except.error "query must be a non empty string"
    ∧ (_bm25_retrieval_async ⟨false⟩ [] "" 10 false).2.2
        = [BackendCall.info, BackendCall.indexExists]
    ∧ (_bm25_retrieval_async ⟨false⟩ [] "" 10 false).2.2 ≠ [] := by
  refine ⟨rfl, rfl, by decide⟩

/-- C8 (amended): validation errors surface before any backend interaction,
including lazy initialization, in the synchronous operations and in
filter_documents_async; in write_documents_async, _bm25_retrieval_async and
_embedding_retrieval_async the lazy connectivity/index-creation step runs
before validation, though the validation error still surfaces before the
data operation itself (no search or bulk call appears in the trace). -/
theorem c8_validation_ordering_amended :
    (∀ (st : StoreState) (hits : List Hit) (k : Nat) (ss : Bool),
        _bm25_retrieval st hits "" k ss
          = (Except.error "query must be a non empty string", st, []))
    ∧ (∀ (st : StoreState) (hits : List Hit) (qe : List ℝ) (k : Nat) (nc : Option Nat),
        qe.isEmpty = true →
        _embedding_retrieval st hits qe k nc
          = (Except.error "query_embedding must be a non-empty list of floats", st, []))
    ∧ (∀ (st : StoreState) (items : List WriteItem), firstNotDocument items = true →
        write_documents_tr st items
          = (Except.error "param documents must contain a list of objects of type Document",
             st, []))
    ∧ (∀ (st : StoreState) (hits : List Hit) (m : List (String × JVal)),
        filtersInvalid (some m) = true →
        filter_documents_async st hits (some m) = (Except.error invalidFilterMsg, st, []))
    ∧ (∀ (st : StoreState) (hits : List Hit) (k : Nat) (ss : Bool),
        _bm25_retrieval_async st hits "" k ss
          = (Except.error "query must be a non empty string",
             (ensureInitialized st).1, (ensureInitialized st).2))
    ∧ (∀ (st : StoreState) (hits : List Hit) (qe : List ℝ) (k : Nat) (nc : Option Nat),
        qe.isEmpty = true →
        _embedding_retrieval_async st hits qe k nc
          = (Except.error "query_embedding must be a non-empty list of floats",
             (ensureInitialized st).1, (ensureInitialized st).2))
    ∧ (∀ (st : StoreState) (items : List WriteItem), firstNotDocument items = true →
        write_documents_async_tr st items
          = (Except.error "param documents must contain a list of objects of type Document",
             (ensureInitialized st).1, (ensureInitialized st).2)) := by
  refine ⟨?_, ?_, ?_, ?_, ?_, ?_, ?_⟩
  · intro st hits k ss
    simp [_bm25_retrieval]
  · intro st hits qe k nc hqe
    simp [_embedding_retrieval, hqe]
  · intro st items hitems
    simp [write_documents_tr, hitems]
  · intro st hits m hm
    simp [filter_documents_async, hm]
  · intro st hits k ss
    simp [_bm25_retrieval_async]
  · intro st hits qe k nc hqe
    simp [_embedding_retrieval_async, hqe]
  · intro st items hitems
    simp [write_documents_async_tr, hitems]

/-- C8 witness: the synchronous embedding retrieval fails fast with no
backend interaction, and the asynchronous write performs the initialization
step before its validation error. -/
theorem c8_validation_ordering_witness :
    (([] : List ℝ).isEmpty = true
      ∧ _embedding_retrieval ⟨false⟩ [] [] 10 none
          = (Except.error "query_embedding must be a non-empty list of floats", ⟨false⟩, []))
    ∧ (firstNotDocument [WriteItem.notADocument] = true
      ∧ write_documents_async_tr ⟨false⟩ [WriteItem.notADocument]
          = (Except.error "param documents must contain a list of objects of type Document",
             ⟨true⟩, [BackendCall.info, BackendCall.indexExists])) :=
  ⟨⟨rfl, c8_validation_ordering_amended.2.1 ⟨false⟩ [] [] 10 none rfl⟩,
   ⟨rfl, c8_validation_ordering_amended.2.2.2.2.2.2 ⟨false⟩ [WriteItem.notADocument] rfl⟩⟩

/-- C9 counterexample: the synchronous and asynchronous variants do not
implement identical contracts: they pick different verbs for SKIP, request
different refresh modes, resolve an explicit candidate pool of 0
differently, and report duplicate conflicts through different error
shapes. -/
theorem c9_sync_async_divergences :
    write_action (resolvePolicy DuplicatePolicy.SKIP)
        ≠ write_action_async (resolvePolicy DuplicatePolicy.SKIP)
    ∧ write_refresh ≠ write_refresh_async
    ∧ resolveNumCandidates 5 (some 0) = 50 ∧ resolveNumCandidatesAsync 5 (some 0) = 0
    ∧ write_documents_reconcile DuplicatePolicy.FAIL 0 [⟨"a", conflictType, 409, "create"⟩]
        = WriteOutcome.duplicateError ["a"]
    ∧ write_documents_async_reconcile DuplicatePolicy.FAIL 0 [⟨"a", conflictType, 409, "create"⟩]
        = WriteOutcome.wrappedStoreError (WriteOutcome.duplicateError ["a"]) := by
  decide

/-- C9 (amended): the two variants agree on verb selection for FAIL, NONE
and OVERWRITE, on candidate-pool resolution for an unspecified or positive
pool, and on the local validations, but they differ in the SKIP verb
(sync create, async index), in the refresh mode (sync wait_for, async
immediate) and in duplicate-conflict reporting. -/
theorem c9_sync_async_contract_amended :
    (∀ p : DuplicatePolicy, p ≠ DuplicatePolicy.SKIP →
        write_action (resolvePolicy p) = write_action_async (resolvePolicy p))
    ∧ (∀ k : Nat, resolveNumCandidates k none = resolveNumCandidatesAsync k none)
    ∧ (∀ (k n : Nat), n ≠ 0 →
        resolveNumCandidates k (some n) = resolveNumCandidatesAsync k (some n))
    ∧ (∀ (st : StoreState) (hits : List Hit) (k : Nat) (ss : Bool),
        (_bm25_retrieval st hits "" k ss).1 = (_bm25_retrieval_async st hits "" k ss).1)
    ∧ (∀ (qe : List ℝ) (k : Nat) (nc : Option Nat), qe.isEmpty = true →
        _embedding_retrieval_knn qe k nc = _embedding_retrieval_knn_async qe k nc)
    ∧ write_action (resolvePolicy DuplicatePolicy.SKIP) = "create"
    ∧ write_action_async (resolvePolicy DuplicatePolicy.SKIP) = "index"
    ∧ write_refresh = Refresh.waitFor ∧ write_refresh_async = Refresh.immediate := by
  refine ⟨?_, ?_, ?_, ?_, ?_, rfl, rfl, rfl, rfl⟩
  · intro p hp
    cases p
    · rfl
    · exact absurd rfl hp
    · rfl
    · rfl
  · intro k
    rfl
  · intro k n hn
    simp [resolveNumCandidates, resolveNumCandidatesAsync, hn]
  · intro st hits k ss
    simp [_bm25_retrieval, _bm25_retrieval_async]
  · intro qe k nc hqe
    simp [_embedding_retrieval_knn, _embedding_retrieval_knn_async, hqe]

/-- C9 witness: the verbs agree at OVERWRITE and the pool resolutions agree
at an explicit positive pool. -/
theorem c9_sync_async_contract_witness :
    (DuplicatePolicy.OVERWRITE ≠ DuplicatePolicy.SKIP
      ∧ write_action (resolvePolicy DuplicatePolicy.OVERWRITE)
          = write_action_async (resolvePolicy DuplicatePolicy.OVERWRITE))
    ∧ ((3:Nat) ≠ 0 ∧ resolveNumCandidates 4 (some 3) = resolveNumCandidatesAsync 4 (some 3)) :=
  ⟨⟨by decide, c9_sync_async_contract_amended.1 DuplicatePolicy.OVERWRITE (by decide)⟩,
   ⟨by decide, c9_sync_async_contract_amended.2.2.1 4 3 (by decide)⟩⟩

/-- C10: The hit-to-document mapping is partial at its public boundary:
when a hit carries a highlight fragment, deserialization succeeds only if
the source already holds a `metadata` key (writing the fragment under
`highlighted` into that mapping), the hit score is copied into the
document score on every success, and a highlighted hit without a
`metadata` key makes the search raise instead of returning documents. -/
theorem c10_deserialize_partiality :
    (∀ (hit : Hit) (hl : JVal) (d : Document), hit.highlight = some hl →
        _deserialize_document hit = Except.ok d →
        (assocLookup "metadata" hit.source).isSome = true)
    ∧ (∀ (hit : Hit) (hl : JVal) (m : List (String × JVal)), hit.highlight = some hl →
        assocLookup "metadata" hit.source = some (JVal.obj m) →
        _deserialize_document hit
          = Except.ok ⟨assocSet "metadata" (JVal.obj (assocSet "highlighted" hl m)) hit.source,
                       hit.score⟩)
    ∧ (∀ (hit : Hit) (d : Document),
        _deserialize_document hit = Except.ok d → d.score = hit.score)
    ∧ _deserialize_document badHit = Except.error "KeyError: metadata"
    ∧ _search_documents [badHit] 10 none none
        = ([0], Except.error (SearchErr.deserializeErr "KeyError: metadata")) := by
  refine ⟨?_, ?_, ?_, rfl, rfl⟩
  · intro hit hl d hh hd
    unfold _deserialize_document at hd
    rw [hh] at hd
    cases hml : assocLookup "metadata" hit.source with
    | none => rw [hml] at hd; cases hd
    | some v => rfl
  · intro hit hl m hh hml
    unfold _deserialize_document
    rw [hh, hml]
  · intro hit d hd
    unfold _deserialize_document at hd
    cases hh : hit.highlight with
    | none =>
      rw [hh] at hd
      cases hd
      rfl
    | some hl =>
      rw [hh] at hd
      cases hml : assocLookup "metadata" hit.source with
      | none => rw [hml] at hd; cases hd
      | some v =>
        rw [hml] at hd
        cases v with
        | str s => cases hd
        | obj m =>
          cases hd
          rfl

/-- C10 witness: a highlighted hit with a `metadata` mapping deserializes
to the document carrying the fragment under `highlighted`, and scores are
copied through. -/
theorem c10_deserialize_partiality_witness :
    (hlHit.highlight = some (JVal.str "frag")
      ∧ assocLookup "metadata" hlHit.source = some (JVal.obj [])
      ∧ _deserialize_document hlHit
          = Except.ok ⟨assocSet "metadata"
                (JVal.obj (assocSet "highlighted" (JVal.str "frag") [])) hlHit.source,
              hlHit.score⟩)
    ∧ (_deserialize_document hit0 = Except.ok doc0 ∧ doc0.score = hit0.score) :=
  ⟨⟨rfl, rfl, c10_deserialize_partiality.2.1 hlHit (JVal.str "frag") [] rfl rfl⟩,
   ⟨rfl, c10_deserialize_partiality.2.2.1 hit0 doc0 rfl⟩⟩

end ES
